import Mathlib

/-!
# Verification of the curiefense request-inspection core

Shallow embedding of the decision algebra, the global-filter matcher, the
tagging pass with its identity-fingerprint side channel, the staged
inspection API of the lua binding crate, and the log-serializer tag
synthesis.  Sources:

* `curiefense/src/interface/mod.rs` (decisions, actions, merging, log tags)
* `curiefense/src/tagging.rs` (matcher, tagger, fingerprint escalation)
* `curiefense/src/fingerprint.rs` (visitor-id lookups)
* `curiefense-lua/src/lib.rs` (one-shot and staged entry points)

External crates (regex, sha2, redis) and repository modules that are not
part of the verified sources (`config`, `utils`, the `interface`
submodules) are modelled either as function parameters (oracles) or as
definitions whose doc comment starts with `Modelled from the spec:`.
-/

namespace Curiefense

/-- Match locations, from the `interface` module (`Location`); only the
constructors used by the matcher are relevant here. -/
inductive Location where
  | Request
  | Ip
  | Headers
  | Cookies
  | Path
  | Uri
  | HeaderValue (k : String) (v : String)
  | CookieValue (k : String) (v : String)
  | UriArgumentValue (k : String) (v : String)
  | PluginValue (k : String) (v : String)
deriving DecidableEq

/-- Embeds `BDecision` from the `interface` module: the severity recorded in a
block reason. -/
inductive BDecision where
  | Skip
  | Monitor
  | Blocking
deriving DecidableEq

/-- Modelled from the spec: `BlockReason` (its module `interface/block_reasons.rs`
is not among the sources).  A block reason produced by a global filter
carries the section id and name, the severity, and the matched locations. -/
structure BlockReason where
  id : String
  name : String
  decision : BDecision
  locations : Finset Location
deriving DecidableEq

/-- Modelled from the spec: `BlockReason::global_filter` constructor. -/
def BlockReason.global_filter (id name : String) (dec : BDecision)
    (locs : Finset Location) : BlockReason :=
  ⟨id, name, dec, locs⟩

/-- Embeds `ActionType` from `interface/mod.rs`. -/
inductive ActionType where
  | Skip
  | Monitor
  | Block
deriving DecidableEq

/-- Embeds `ActionType::is_blocking`. -/
def ActionType.is_blocking : ActionType → Bool
  | .Block => true
  | _ => false

/-- Embeds `ActionType::is_final`. -/
def ActionType.is_final : ActionType → Bool
  | .Monitor => false
  | _ => true

/-- Embeds `ActionType::priority`. -/
def ActionType.priority : ActionType → Nat
  | .Block => 6
  | .Monitor => 1
  | .Skip => 9

/-- Embeds `SimpleActionT` from `interface/mod.rs`. -/
inductive SimpleActionT where
  | Skip
  | Monitor
  | Custom (content : String)
  | Challenge
  | Identity
  | Fingerprint (content : String)
  | FingerprintBlock (content : String)
deriving DecidableEq

/-- Embeds `SimpleActionT::priority`. -/
def SimpleActionT.priority : SimpleActionT → Nat
  | .Custom _ => 8
  | .Challenge => 6
  | .Monitor => 1
  | .Skip => 9
  | .Identity => 2
  | .Fingerprint _ => 10
  | .FingerprintBlock _ => 10

/-- Embeds `SimpleActionT::is_blocking`: everything except `Monitor`. -/
def SimpleActionT.is_blocking (t : SimpleActionT) : Bool :=
  !(t = SimpleActionT.Monitor)

/-- Embeds `SimpleActionT::to_bdecision`. -/
def SimpleActionT.to_bdecision : SimpleActionT → BDecision
  | .Skip => .Skip
  | .Monitor | .Identity | .Fingerprint _ => .Monitor
  | .Challenge | .Custom _ | .FingerprintBlock _ => .Blocking

/-- Key/value maps of the source are hash maps; they are modelled as
association lists whose `get` is the first binding for the key. -/
abbrev StrMap := List (String × String)

/-- Embeds `HashMap::insert`: replace the binding if the key is present,
otherwise add it. -/
def strMapInsert (m : StrMap) (k v : String) : StrMap :=
  if m.any (fun p => p.1 = k) then
    m.map (fun p => if p.1 = k then (k, v) else p)
  else
    m ++ [(k, v)]

/-- Embeds `HashMap::extend`: later bindings override earlier ones. -/
def strMapExtend (m adds : StrMap) : StrMap :=
  adds.foldl (fun acc p => strMapInsert acc p.1 p.2) m

/-- Rendered `Action` from `interface/mod.rs`. -/
structure Action where
  atype : ActionType
  block_mode : Bool
  status : Nat
  headers : Option StrMap
  content : String
  extra_tags : Option (List String)
deriving DecidableEq

/-- Embeds `Decision` from `interface/mod.rs`. -/
structure Decision where
  maction : Option Action
  reasons : List BlockReason
deriving DecidableEq

/-- Embeds `Decision::pass`. -/
def Decision.pass (reasons : List BlockReason) : Decision :=
  ⟨none, reasons⟩

/-- Embeds `Decision::action`. -/
def Decision.action (a : Action) (reasons : List BlockReason) : Decision :=
  ⟨some a, reasons⟩

/-- The priority of an optional action; `None` is the bottom of the
lattice (the source doc comment: Skip > Block > Monitor > None). -/
def priorityOpt : Option Action → Nat
  | none => 0
  | some a => a.atype.priority

/-- Which argument `merge_decisions` keeps, from the first match block of
the source: both present keeps `d1` iff its priority is at least `d2`'s;
`(None, Some)` keeps `d2`; otherwise `d1` is kept. -/
def mergeKeepsFirst (d1 d2 : Decision) : Bool :=
  match d1.maction, d2.maction with
  | some a1, some a2 => a2.atype.priority ≤ a1.atype.priority
  | none, some _ => false
  | _, _ => true

/-- The header-merging step of `merge_decisions`: if the kept action is a
Monitor with a header map, extend it with the thrown action's headers. -/
def monitor_fixup (kept thrown : Decision) : Decision :=
  match kept.maction with
  | some action =>
    if action.atype = ActionType.Monitor then
      match action.headers with
      | some headers =>
        let throw_headers := (thrown.maction.bind (fun a => a.headers)).getD []
        { kept with
            maction := some ({ action with headers := some (strMapExtend headers throw_headers) }) }
      | none => kept
    else kept
  | none => kept

/-- Embeds `merge_decisions` from `interface/mod.rs`: pick the kept/thrown pair,
merge headers into a kept Monitor action, and append the thrown decision's
reasons after the kept one's. -/
def merge_decisions (d1 d2 : Decision) : Decision :=
  let kt : Decision × Decision :=
    match d1.maction, d2.maction with
    | some a1, some a2 =>
      if a2.atype.priority ≤ a1.atype.priority then (d1, d2) else (d2, d1)
    | none, some _ => (d2, d1)
    | _, _ => (d1, d2)
  let kept := monitor_fixup kt.1 kt.2
  { kept with reasons := kept.reasons ++ kt.2.reasons }

/-!  ## Templates and simple actions  -/

/-- Modelled from the spec: `RequestSelector` lives in the missing
`config/matchers.rs`; only its identity matters here, so selectors are
represented by their name. -/
abbrev RequestSelector := String

/-- Embeds `TVar` from the missing `utils/templating.rs`, modelled from the spec:
a template variable is a selector or a tag test. -/
inductive TVar where
  | Selector (sel : RequestSelector)
  | Tag (name : String)
deriving DecidableEq

/-- Embeds `TemplatePart` (spec 4.5): raw text or a variable. -/
inductive TemplatePart where
  | Raw (s : String)
  | Var (v : TVar)
deriving DecidableEq

abbrev RequestTemplate := List TemplatePart

/-- Modelled from the spec: `parse_request_template` on a plain string
(no template syntax) yields a single raw part; only this case is ever
reached here (the identity hash value contains no template markers). -/
def parse_request_template (s : String) : RequestTemplate :=
  [TemplatePart.Raw s]

/-- Embeds `Selected` from the missing `utils` module: the result of resolving a
selector, modelled from the spec. -/
inductive Selected where
  | OStr (s : String)
  | Str (s : String)
  | U32 (v : Nat)
deriving DecidableEq

/-- Embeds `SimpleAction` from `interface/mod.rs` (headers are templates). -/
structure SimpleAction where
  atype : SimpleActionT
  headers : Option (List (String × RequestTemplate))
  status : Nat
  extra_tags : Option (List String)
deriving DecidableEq

/-- Embeds `SimpleDecision` from `interface/mod.rs`. -/
inductive SimpleDecision where
  | Pass
  | Action (a : SimpleAction) (reasons : List BlockReason)
deriving DecidableEq

/-- Embeds `stronger_decision` from `interface/mod.rs`. -/
def stronger_decision (d1 d2 : SimpleDecision) : SimpleDecision :=
  match d1, d2 with
  | .Pass, _ => d2
  | _, .Pass => d1
  | .Action s1 _, .Action s2 _ =>
    if s2.atype.priority ≤ s1.atype.priority then d1 else d2

/-!  ## The matcher of `tagging.rs`  -/

/-- IP addresses (`std::net::IpAddr`): a v4 or v6 address, abstracted to
its numeric value. -/
inductive IpAddr where
  | v4 (a : Nat)
  | v6 (a : Nat)
deriving DecidableEq

/-- Compiled case-insensitive regexes (external `regex` crate) are
abstracted to their matching function. -/
abbrev CompiledRegex := String → Bool

/-- Embeds `SingleEntry` from the missing `config/globalfilter.rs` (fields as
used by `check_single`): an exact string and an optional compiled regex. -/
structure SingleEntry where
  exact : String
  re : Option CompiledRegex

/-- Embeds `PairEntry` (fields as used by `check_pair`). -/
structure PairEntry where
  key : String
  exact : String
  re : Option CompiledRegex

/-- IP networks (`ipnet` crate) abstracted to their containment test. -/
abbrev Network := IpAddr → Bool

abbrev Range4 := Nat → Bool

abbrev Range6 := Nat → Bool

/-- Embeds `GlobalFilterEntryE`: the atomic entry kinds matched in
`check_entry` of `tagging.rs`, in source order. -/
inductive GlobalFilterEntryE where
  | Always (b : Bool)
  | Ip (addr : IpAddr)
  | Network (net : Network)
  | Range4 (net4 : Range4)
  | Range6 (net6 : Range6)
  | Path (pth : SingleEntry)
  | Query (qry : SingleEntry)
  | Uri (uri : SingleEntry)
  | Country (cty : SingleEntry)
  | Region (cty : SingleEntry)
  | SubRegion (cty : SingleEntry)
  | Method (mtd : SingleEntry)
  | Header (hdr : PairEntry)
  | Plugins (arg : PairEntry)
  | Args (arg : PairEntry)
  | Cookies (arg : PairEntry)
  | Asn (asn : Nat)
  | Company (cmp : SingleEntry)
  | Authority (auth : SingleEntry)
  | Tag (tg : SingleEntry)
  | SecurityPolicyId (id : String)
  | SecurityPolicyEntryId (id : String)

/-- Embeds `GlobalFilterEntry`: an atomic entry with its negation flag. -/
structure GlobalFilterEntry where
  negated : Bool
  entry : GlobalFilterEntryE

/-- Embeds `Relation` from the missing `config/raw.rs`. -/
inductive Relation where
  | And
  | Or
deriving DecidableEq

/-- Embeds `GlobalFilterRule`: a relation over sub-rules or an atomic entry. -/
inductive GlobalFilterRule where
  | Rel (relation : Relation) (entries : List GlobalFilterRule)
  | Entry (e : GlobalFilterEntry)

/-- Embeds `RequestMeta` (method, path, optional authority and request id). -/
structure RequestMeta where
  method : String
  path : String
  authority : Option String
  requestid : Option String
deriving DecidableEq

/-- The geo-IP attributes read by `check_entry` and the tagger's seed
pass; every lookup may be absent. -/
structure GeoIp where
  ip : Option IpAddr := none
  ipstr : String := ""
  country_iso : Option String := none
  country_name : Option String := none
  continent_name : Option String := none
  continent_code : Option String := none
  city_name : Option String := none
  region : Option String := none
  subregion : Option String := none
  company : Option String := none
  asn : Option Nat := none
  network : Option String := none
  is_proxy : Option Bool := none
  is_satellite : Option Bool := none
  is_vpn : Option Bool := none
  is_tor : Option Bool := none
  is_relay : Option Bool := none
  is_hosting : Option Bool := none
  is_mobile : Option Bool := none
  privacy_service : Option String := none

/-- Query information: path, query string, full uri and arguments. -/
structure QueryInfo where
  qpath : String := ""
  query : String := ""
  uri : String := ""
  args : StrMap := []

/-- The selected security policy: its id, entry id and attached tags. -/
structure SecPolicy where
  policy_id : String := ""
  entry_id : String := ""
  tags : List String := []

/-- The inner request information (`rinfo.rinfo` in the source). -/
structure RInfo where
  meta : RequestMeta
  geoip : GeoIp := {}
  qinfo : QueryInfo := {}
  host : String := ""
  secpolicy : SecPolicy := {}

/-- Embeds `RequestInfo`: normalized request fields plus the mutable identity
map appended by the identity fingerprinter. -/
structure RequestInfo where
  headers : StrMap := []
  cookies : StrMap := []
  plugins : StrMap := []
  rinfo : RInfo
  identity : StrMap := []

/-- Embeds `RequestField::get`, modelled as association-list lookup. -/
def rfGet (m : StrMap) (k : String) : Option String :=
  List.lookup k m

/-- Tags: labels with their accumulated locations.  Modelled from the
spec: the `Tags` type lives in the missing `interface/tagging.rs`;
insertion union-merges locations and is idempotent. -/
structure Tags where
  entries : List (String × Finset Location)
deriving DecidableEq

/-- Embeds `Tags::get`: the location set of a tag. -/
def Tags.get (t : Tags) (k : String) : Option (Finset Location) :=
  List.lookup k t.entries

/-- Embeds `Tags::contains`. -/
def Tags.contains (t : Tags) (k : String) : Bool :=
  (t.get k).isSome

/-- Modelled from the spec: tag insertion union-merges the locations of
an existing tag and appends a new tag otherwise. -/
def Tags.insert_locs (t : Tags) (k : String) (locs : Finset Location) : Tags :=
  if t.entries.any (fun p => p.1 = k) then
    ⟨t.entries.map (fun p => if p.1 = k then (p.1, p.2 ∪ locs) else p)⟩
  else
    ⟨t.entries ++ [(k, locs)]⟩

/-- Embeds `Tags::insert` with a single location. -/
def Tags.insert (t : Tags) (k : String) (loc : Location) : Tags :=
  t.insert_locs k {loc}

/-- Modelled from the spec: `Tags::insert_qualified` inserts the tag
`name:value`. -/
def Tags.insert_qualified (t : Tags) (name value : String) (loc : Location) : Tags :=
  t.insert (name ++ ":" ++ value) loc

/-- Embeds `MatchResult` from `tagging.rs`. -/
structure MatchResult where
  matched : Finset Location
  matching : Bool
deriving DecidableEq

/-- The local helper `bool` of `check_entry`. -/
def bool_loc (loc : Location) (b : Bool) : Option (Finset Location) :=
  if b then some {loc} else none

/-- The local helper `mbool` of `check_entry`. -/
def mbool_loc (loc : Location) (mb : Option Bool) : Option (Finset Location) :=
  bool_loc loc (mb.getD false)

/-- Embeds `check_pair` from `tagging.rs`: look the key up, then compare the
value against the exact string or the regex. -/
def check_pair (pr : PairEntry) (s : StrMap) (locf : String → Location) :
    Option (Finset Location) :=
  (rfGet s pr.key).bind fun v =>
    if pr.exact == v || (pr.re.map (fun re => re v)).getD false then
      some {locf v}
    else
      none

/-- Embeds `check_single` from `tagging.rs`. -/
def check_single (pr : SingleEntry) (s : String) (loc : Location) :
    Option (Finset Location) :=
  if pr.exact == s || (pr.re.map (fun re => re s)).getD false then
    some {loc}
  else
    none

/-- The big `let r = match &sub.entry` block of `check_entry`, one arm
per entry kind, in source order. -/
def entry_sel (rinfo : RequestInfo) (tags : Tags) :
    GlobalFilterEntryE → Option (Finset Location)
  | .Always false => none
  | .Always true => some {Location.Request}
  | .Ip addr => mbool_loc .Ip (rinfo.rinfo.geoip.ip.map (fun i => i == addr))
  | .Network net => mbool_loc .Ip (rinfo.rinfo.geoip.ip.map (fun i => net i))
  | .Range4 net4 =>
    bool_loc .Ip
      (match rinfo.rinfo.geoip.ip with
        | some (.v4 ip4) => net4 ip4
        | _ => false)
  | .Range6 net6 =>
    bool_loc .Ip
      (match rinfo.rinfo.geoip.ip with
        | some (.v6 ip6) => net6 ip6
        | _ => false)
  | .Path pth => check_single pth rinfo.rinfo.qinfo.qpath .Path
  | .Query qry => check_single qry rinfo.rinfo.qinfo.query .Path
  | .Uri uri => check_single uri rinfo.rinfo.qinfo.uri .Uri
  | .Country cty =>
    rinfo.rinfo.geoip.country_iso.bind fun ccty =>
      check_single cty ccty.toLower .Ip
  | .Region cty =>
    rinfo.rinfo.geoip.region.bind fun ccty =>
      check_single cty ccty.toLower .Ip
  | .SubRegion cty =>
    rinfo.rinfo.geoip.subregion.bind fun ccty =>
      check_single cty ccty.toLower .Ip
  | .Method mtd => check_single mtd rinfo.rinfo.meta.method .Request
  | .Header hdr =>
    check_pair hdr rinfo.headers (fun h => .HeaderValue hdr.key h)
  | .Plugins arg =>
    check_pair arg rinfo.plugins (fun a => .PluginValue arg.key a)
  | .Args arg =>
    check_pair arg rinfo.rinfo.qinfo.args (fun a => .UriArgumentValue arg.key a)
  | .Cookies arg =>
    check_pair arg rinfo.cookies (fun c => .CookieValue arg.key c)
  | .Asn asn => mbool_loc .Ip (rinfo.rinfo.geoip.asn.map (fun casn => casn == asn))
  | .Company cmp =>
    rinfo.rinfo.geoip.company.bind fun ccmp =>
      check_single cmp ccmp .Ip
  | .Authority auth => check_single auth rinfo.rinfo.host .Request
  | .Tag tg => tags.get tg.exact
  | .SecurityPolicyId id =>
    if rinfo.rinfo.secpolicy.policy_id == id then some {Location.Request} else none
  | .SecurityPolicyEntryId id =>
    if rinfo.rinfo.secpolicy.entry_id == id then some {Location.Request} else none

/-- Embeds `check_entry` from `tagging.rs`: apply the negation flag to the
atomic test's result. -/
def check_entry (rinfo : RequestInfo) (tags : Tags) (sub : GlobalFilterEntry) :
    MatchResult :=
  match entry_sel rinfo tags sub.entry with
  | some matched => ⟨matched, !sub.negated⟩
  | none => ⟨∅, sub.negated⟩

/-- Embeds `check_rule` from `tagging.rs`: And short-circuits on the first
non-matching child and unions the matched locations; Or returns the
first matching child's result. -/
def check_rule (rinfo : RequestInfo) (tags : Tags) : GlobalFilterRule → MatchResult
  | .Entry e => check_entry rinfo tags e
  | .Rel .And [] => ⟨∅, true⟩
  | .Rel .And (sub :: rest) =>
    let res := check_rule rinfo tags sub
    if res.matching then
      let rres := check_rule rinfo tags (.Rel .And rest)
      if rres.matching then ⟨res.matched ∪ rres.matched, true⟩ else ⟨∅, false⟩
    else ⟨∅, false⟩
  | .Rel .Or [] => ⟨∅, false⟩
  | .Rel .Or (sub :: rest) =>
    let res := check_rule rinfo tags sub
    if res.matching then res else check_rule rinfo tags (.Rel .Or rest)

/-!  ## Identity fingerprint hashing (the Identity arm of `tag_request`)  -/

/-- A regex compiler: `Regex::new` returns a finder on success (the
finder yields the matched substring of its input); `none` models a
pattern on which `Regex::new(..).unwrap()` panics. -/
abbrev RegexCompiler := String → Option (String → Option String)

/-- The loop state of the identity hash construction: the accumulated
hash input, the pending regex pattern, and the previous and current
values. -/
structure IdState where
  hash_item : String
  regex_rule : String
  pre_rule : String
  cur_rule : String
deriving DecidableEq

/-- The initial loop state: all four strings start empty. -/
def idInit : IdState := ⟨"", "", "", ""⟩

/-- Embeds `Regex::new(..).unwrap()` followed by `find`: a compile failure is a
panic; a missed find contributes the literal "none". -/
def regex_find (rc : RegexCompiler) (pat input : String) : Except String String :=
  match rc pat with
  | none => .error "Regex::new unwrap panicked"
  | some find =>
    match find input with
    | some m => .ok m
    | none => .ok "none"

/-- The `if pre_rule != cur_rule` emission that follows each template
part: push the separator and the previous value, filtered through the
pending regex (which is then cleared). -/
def ident_guard (rc : RegexCompiler) (st : IdState) : Except String IdState :=
  if st.pre_rule ≠ st.cur_rule then
    if st.regex_rule = "" then
      .ok { st with hash_item := st.hash_item ++ "." ++ st.pre_rule }
    else
      match regex_find rc st.regex_rule st.pre_rule with
      | .error e => .error e
      | .ok m => .ok { st with hash_item := st.hash_item ++ "." ++ m, regex_rule := "" }
  else
    .ok st

/-- The string a selector part resolves to (the four `Selected` cases;
an unresolvable selector yields "None"). -/
def sel_value (selF : RequestSelector → Option Selected) (sq : RequestSelector) : String :=
  match selF sq with
  | none => "None"
  | some (.OStr s) => s
  | some (.Str s) => s
  | some (.U32 v) => toString v

/-- One iteration of the identity template loop: update the state from
the part (Raw appends to the regex buffer, a selector shifts previous
and current values, a tag test appends true/false), then run the
emission guard. -/
def identity_step (rc : RegexCompiler) (selF : RequestSelector → Option Selected)
    (tagsContains : String → Bool) (st : IdState) :
    TemplatePart → Except String IdState
  | .Raw s =>
    ident_guard rc { st with regex_rule := st.regex_rule ++ s, pre_rule := st.cur_rule }
  | .Var (.Selector sq) =>
    ident_guard rc { st with pre_rule := st.cur_rule, cur_rule := sel_value selF sq }
  | .Var (.Tag name) =>
    ident_guard rc
      { st with hash_item := st.hash_item ++ (if tagsContains name then "true" else "false") }

/-- The final flush after the last part: always push the separator, then
the current value (filtered through a still-pending regex). -/
def ident_flush (rc : RegexCompiler) (st : IdState) : Except String String :=
  if st.regex_rule = "" then
    .ok (st.hash_item ++ "." ++ st.cur_rule)
  else
    match regex_find rc st.regex_rule st.cur_rule with
    | .error e => .error e
    | .ok m => .ok (st.hash_item ++ "." ++ m)

/-- The string fed to SHA-256 for one identity template: run the loop
over all parts from the empty state, then flush. -/
def identity_hash_input (rc : RegexCompiler) (selF : RequestSelector → Option Selected)
    (tagsContains : String → Bool) (parts : List TemplatePart) : Except String String := do
  let st ← parts.foldlM (identity_step rc selF tagsContains) idInit
  ident_flush rc st

/-!  ## The tagger (`tag_request`)  -/

/-- Modelled from the spec: virtual tags (aliases) from the missing
`config/virtualtags.rs`; they do not affect any claim, so only their
identity is kept. -/
abbrev VirtualTags := List (String × String)

/-- Modelled from the spec: `Tags::new` starts an empty tag set over the
virtual-tag table (aliasing is not modelled; no claim depends on it). -/
def Tags.new (_vtags : VirtualTags) : Tags := ⟨[]⟩

/-- Modelled from the spec: `new_with_vtags().with_raw_tags_locs(ts, locs)`
followed by `Tags::extend` merges each section tag, carrying the matched
locations, into the running tag set. -/
def Tags.add_raw_tags_locs (t : Tags) (ts : List String) (locs : Finset Location) : Tags :=
  ts.foldl (fun acc tag => acc.insert_locs tag locs) t

/-- Embeds `GlobalFilterSection` from the missing `config/globalfilter.rs`,
with the fields read by `tag_request`. -/
structure GlobalFilterSection where
  id : String
  name : String
  tags : List String
  rule : GlobalFilterRule
  action : Option SimpleAction

/-- Embeds `fingerprint_check_visitors` from `fingerprint.rs`: the HTTPS
response is printed and discarded, and the function returns true
unconditionally. -/
def fingerprint_check_visitors (_visitor_id : String) : Bool :=
  true

/-- Insertion with override into a header-template map. -/
def tmplMapInsert (m : List (String × RequestTemplate)) (k : String)
    (v : RequestTemplate) : List (String × RequestTemplate) :=
  if m.any (fun p => p.1 = k) then
    m.map (fun p => if p.1 = k then (k, v) else p)
  else
    m ++ [(k, v)]

/-- Embeds `HashMap::extend` on header-template maps. -/
def tmplMapExtend (m adds : List (String × RequestTemplate)) :
    List (String × RequestTemplate) :=
  adds.foldl (fun acc p => tmplMapInsert acc p.1 p.2) m

/-- The seed-tag pass at the top of `tag_request`: human/bot, counts,
host, ip, the geo attributes (absent ones tagged "nil"), anonymizer
flags, and the security-policy tags. -/
def seed_tags (is_human : Bool) (rinfo : RequestInfo) (vtags : VirtualTags) : Tags :=
  let tags := Tags.new vtags
  let tags := if is_human then tags.insert "human" .Request else tags.insert "bot" .Request
  let tags := tags.insert_qualified "headers" (toString rinfo.headers.length) .Headers
  let tags := tags.insert_qualified "cookies" (toString rinfo.cookies.length) .Cookies
  let tags := tags.insert_qualified "args" (toString rinfo.rinfo.qinfo.args.length) .Request
  let tags := tags.insert_qualified "host" rinfo.rinfo.host .Request
  let tags := tags.insert_qualified "ip" rinfo.rinfo.geoip.ipstr .Ip
  let tags := tags.insert_qualified "geo-continent-name"
    (rinfo.rinfo.geoip.continent_name.getD "nil") .Ip
  let tags := tags.insert_qualified "geo-continent-code"
    (rinfo.rinfo.geoip.continent_code.getD "nil") .Ip
  let tags := tags.insert_qualified "geo-city" (rinfo.rinfo.geoip.city_name.getD "nil") .Ip
  let tags := tags.insert_qualified "geo-org" (rinfo.rinfo.geoip.company.getD "nil") .Ip
  let tags := tags.insert_qualified "geo-country"
    (rinfo.rinfo.geoip.country_name.getD "nil") .Ip
  let tags := tags.insert_qualified "geo-region" (rinfo.rinfo.geoip.region.getD "nil") .Ip
  let tags := tags.insert_qualified "geo-subregion"
    (rinfo.rinfo.geoip.subregion.getD "nil") .Ip
  let tags :=
    match rinfo.rinfo.geoip.asn with
    | none => tags.insert_qualified "geo-asn" "nil" .Ip
    | some asn => tags.insert_qualified "geo-asn" (toString asn) .Ip
  let tags := tags.insert_qualified "network" (rinfo.rinfo.geoip.network.getD "nil") .Ip
  let tags := if rinfo.rinfo.geoip.is_proxy.getD false then tags.insert "geo-anon" .Ip else tags
  let tags := if rinfo.rinfo.geoip.is_satellite.getD false then tags.insert "geo-sat" .Ip else tags
  let tags := if rinfo.rinfo.geoip.is_vpn.getD false then tags.insert "geo-vpn" .Ip else tags
  let tags := if rinfo.rinfo.geoip.is_tor.getD false then tags.insert "geo-tor" .Ip else tags
  let tags := if rinfo.rinfo.geoip.is_relay.getD false then tags.insert "geo-relay" .Ip else tags
  let tags := if rinfo.rinfo.geoip.is_hosting.getD false then tags.insert "geo-hosting" .Ip else tags
  let tags :=
    match rinfo.rinfo.geoip.privacy_service with
    | some ps => tags.insert_qualified "geo-privacy-service" ps .Ip
    | none => tags
  let tags := if rinfo.rinfo.geoip.is_mobile.getD false then tags.insert "geo-mobile" .Ip else tags
  rinfo.rinfo.secpolicy.tags.foldl (fun t tag => t.insert tag .Request) tags

/-- The loop state of `tag_request`'s global-filter iteration. -/
structure TagLoopState where
  tags : Tags
  matched : Nat
  decision : SimpleDecision
  monitor_headers : List (String × RequestTemplate)
  identity : StrMap

/-- The body of the `for psection in globalfilters` loop of
`tag_request`, for one section: run the matcher; on a match merge the
section tags, accumulate Monitor headers, hash Identity templates
(`a.headers.clone().unwrap()` panics when absent), run the Fingerprint
visitor-id check (escalating to FingerprintBlock on failure), and
combine the section decision via `stronger_decision`. -/
def process_section (sha256hex : String → String) (checkVisitorId : String → Bool)
    (rc : RegexCompiler) (selF : RequestSelector → Tags → Option Selected)
    (rinfo : RequestInfo) (st : TagLoopState) (psection : GlobalFilterSection) :
    Except String TagLoopState :=
  let mtch := check_rule rinfo st.tags psection.rule
  if mtch.matching then
    let tags := st.tags.add_raw_tags_locs psection.tags mtch.matched
    match psection.action with
    | none => .ok { st with tags := tags, matched := st.matched + 1 }
    | some a =>
      let afterIdRes : Except String (List (String × RequestTemplate) × StrMap) :=
        if a.atype = SimpleActionT.Monitor then
          .ok (tmplMapExtend st.monitor_headers (a.headers.getD []), st.identity)
        else if a.atype = SimpleActionT.Identity then
          match a.headers with
          | none => .error "called Option::unwrap() on a None value"
          | some hm =>
            hm.foldlM
              (fun (acc : List (String × RequestTemplate) × StrMap) p => do
                let input ← identity_hash_input rc (fun sq => selF sq tags)
                  (fun t => tags.contains t) p.2
                let hash_value := sha256hex input
                .ok (tmplMapExtend acc.1 [(p.1, parse_request_template hash_value)],
                  strMapInsert acc.2 p.1 hash_value))
              (st.monitor_headers, st.identity)
        else
          .ok (st.monitor_headers, st.identity)
      match afterIdRes with
      | .error e => .error e
      | .ok (mh, ident) =>
        let fpblock : Bool × String :=
          match a.atype with
          | .Fingerprint content =>
            (match rfGet rinfo.headers "browserfingerid" with
              | some fp =>
                if checkVisitorId fp then (false, content)
                else if fingerprint_check_visitors fp then (false, content)
                else (true, content)
              | none => (true, content))
          | _ => (false, "")
        let curdec :=
          if !fpblock.1 then
            SimpleDecision.Action a
              [BlockReason.global_filter psection.id psection.name
                a.atype.to_bdecision mtch.matched]
          else
            let clone_a := { a with atype := SimpleActionT.FingerprintBlock fpblock.2 }
            SimpleDecision.Action clone_a
              [BlockReason.global_filter psection.id psection.name
                clone_a.atype.to_bdecision mtch.matched]
        .ok { tags := tags, matched := st.matched + 1,
              decision := stronger_decision st.decision curdec,
              monitor_headers := mh, identity := ident }
  else
    .ok st

/-- The result of `tag_request`: the tag set, the running decision, the
stats counters passed to `stats.mapped`, and the identity map appended
onto the request. -/
structure TagResult where
  tags : Tags
  decision : SimpleDecision
  gf_total : Nat
  gf_matched : Nat
  identity : StrMap

/-- Embeds `tag_request` from `tagging.rs`: seed tags, iterate the sections,
then, if the final decision is Monitor- or Identity-kind, replace its
headers with the accumulated monitor headers.  A panic in the source
(`unwrap` on an absent Identity header map, `Regex::new(..).unwrap()` on
an invalid pattern) is an `error` result. -/
def tag_request (sha256hex : String → String) (checkVisitorId : String → Bool)
    (rc : RegexCompiler) (selF : RequestSelector → Tags → Option Selected)
    (is_human : Bool) (globalfilters : List GlobalFilterSection)
    (rinfo : RequestInfo) (vtags : VirtualTags) : Except String TagResult := do
  let tags0 := seed_tags is_human rinfo vtags
  let final ← globalfilters.foldlM
    (process_section sha256hex checkVisitorId rc selF rinfo)
    ⟨tags0, 0, SimpleDecision.Pass, [], rinfo.identity⟩
  let decision :=
    match final.decision with
    | SimpleDecision.Action action block_reasons =>
      if action.atype = SimpleActionT.Monitor ∨ action.atype = SimpleActionT.Identity then
        SimpleDecision.Action { action with headers := some final.monitor_headers }
          block_reasons
      else
        SimpleDecision.Action action block_reasons
    | d => d
  .ok { tags := final.tags, decision := decision,
        gf_total := globalfilters.length, gf_matched := final.matched,
        identity := final.identity }

/-!  ## Log serializer: synthetic status tags (`jsonlog_rinfo`)  -/

/-- The `code_vec` built inside `LogTags::serialize` of `jsonlog_rinfo`:
a present response code yields a `status` and a `status-class` entry. -/
def code_vec (rcode : Option Nat) : List (String × String) :=
  match rcode with
  | some code =>
    [("status", toString code), ("status-class", toString (code / 100) ++ "xx")]
  | none => []

/-- The response-code suppression of `jsonlog_rinfo`: a Monitor action
clears the code so that no status tags are synthesized. -/
def jsonlog_rcode (dec : Decision) (rcode : Option Nat) : Option Nat :=
  match dec.maction with
  | some a => if a.atype = ActionType.Monitor then none else rcode
  | none => rcode

/-- Modelled from the spec: `Tags::serialize_with_extra` (in the missing
`interface/tagging.rs`) emits the base tags, the extra tags, and one
`name=value` entry per synthesized pair; the pairs themselves and the
Monitor suppression come from `jsonlog_rinfo` in `interface/mod.rs`. -/
def log_tags_field (tags extra : List String) (dec : Decision) (rcode : Option Nat) :
    List String :=
  tags ++ extra ++ (code_vec (jsonlog_rcode dec rcode)).map (fun p => p.1 ++ "=" ++ p.2)

/-- A concrete request used by the witnesses: no IP, no headers, default
security policy. -/
def rinfo0 : RequestInfo :=
  { rinfo := { meta := { method := "GET", path := "/", authority := none, requestid := none } } }

/-- Concrete empty tag set for witnesses. -/
def tags0 : Tags := ⟨[]⟩

/-- A concrete global-filter section whose Identity action has no header
map: the input on which `tag_request` panics. -/
def identity_none_section : GlobalFilterSection :=
  ⟨"gf1", "identity section", [], .Entry ⟨false, .Always true⟩,
    some ⟨SimpleActionT.Identity, none, 503, none⟩⟩

/-!  ## The lua binding crate (`curiefense-lua/src/lib.rs`)  -/

/-- The log levels accepted by the embedding API. -/
inductive LogLevel where
  | Debug
  | Info
  | Warning
  | Error
deriving DecidableEq

/-- Modelled from the spec: the log buffer of the missing `logs.rs`, as
the list of recorded messages. -/
abbrev Logs := List String

/-- Modelled from the spec: `Logs::default()` starts empty. -/
def logsDefault : Logs := []

/-- Modelled from the spec: `Logs::new(loglevel)` starts empty (the
level only filters which messages are recorded; no claim depends on
it). -/
def logsNew (_level : LogLevel) : Logs := []

/-- Modelled from the spec: recording a debug message appends it. -/
def logsDebug (l : Logs) (msg : String) : Logs :=
  l ++ [msg]

/-- Embeds `RawRequest` from the missing `utils` module: ip string, parsed
meta, headers and optional body bytes. -/
structure RawRequest where
  ipstr : String
  meta : RequestMeta
  headers : StrMap
  mbody : Option (List Nat)

/-- Modelled from the spec: `RequestMeta::from_map` (missing `utils`
module) requires the `method` and `path` keys and keeps the optional
`authority` and `x-request-id`. -/
def requestMetaFromMap (m : StrMap) : Except String RequestMeta :=
  match rfGet m "method", rfGet m "path" with
  | some method, some path =>
    .ok ⟨method, path, rfGet m "authority", rfGet m "x-request-id"⟩
  | _, _ => .error "missing method or path"

/-- Embeds `AnalyzeResult` (missing `analyze.rs`), restricted to the decision:
tags, rinfo and stats do not participate in the pipeline claim. -/
structure AnalyzeResult where
  decision : Decision

/-- Embeds `InspectionResult` (missing `utils` module), restricted to the
decision and the log buffer. -/
structure InspectionResult where
  decision : Decision
  logs : Logs

/-- Embeds `InspectionResult::from_analyze`. -/
def InspectionResult.from_analyze (logs : Logs) (r : AnalyzeResult) : InspectionResult :=
  ⟨r.decision, logs⟩

/-- Embeds `InitResult` from the missing `analyze.rs`: a finished result or a
phase-1 state. -/
inductive InitResult (P : Type) where
  | Res (r : AnalyzeResult)
  | Phase1 (p : P)

/-- Embeds `LInitResult` from the lua crate's `userdata` module: a finished
result, an error, or a phase state with its logs. -/
inductive LInitResult (P : Type) where
  | P0Result (r : InspectionResult)
  | P0Error (e : String)
  | P1 (logs : Logs) (p : P)

/-- Embeds `inspect_init` from `curiefense-lua/src/lib.rs`: parse the meta,
then look the `browserfingerid` header up — an absent header is an error
return before any analysis; a present one is checked against the redis
oracle with the saas provider as fallback (affecting only the logs) —
then run the phase-0 analysis and `analyze_init`. -/
def inspect_init {P0 APhase1 : Type} (checkVisitorId : String → Bool)
    (igrmInit : RawRequest → Except AnalyzeResult P0)
    (analyzeInit : P0 → InitResult APhase1)
    (loglevel : LogLevel) (meta headers : StrMap)
    (mbody : Option (List Nat)) (ip : String) :
    Except String (InitResult APhase1 × Logs) :=
  let logs := logsNew loglevel
  let logs := logsDebug logs "Inspection init"
  match requestMetaFromMap meta with
  | .error e => .error e
  | .ok rmeta =>
    let raw : RawRequest := ⟨ip, rmeta, headers, mbody⟩
    match rfGet raw.headers "browserfingerid" with
    | none => .error "visitorID does not exist"
    | some id =>
      let logs := logsDebug logs ("visitorID = " ++ id)
      let logs :=
        if checkVisitorId id then
          logsDebug logs "visitorID found in redis"
        else
          let logs := logsDebug logs "visitorID not found, check fingperint saas"
          if fingerprint_check_visitors id then
            logsDebug logs "visitorID found in saas"
          else
            logsDebug logs "visitorID not found in saas"
      match igrmInit raw with
      | .error res => .ok (.Res res, logs)
      | .ok p0 => .ok (analyzeInit p0, logs)

/-- Modelled from the spec: `inspect_generic_request_map` (in the
missing crate root) is the one-shot analysis; by the spec's phase
pipeline it runs init, flows with no results, limits with no results,
and finish. -/
def inspect_generic_request_map
    {P0 APhase1 APhase2O APhase2I APhase3 FlowResult LimitResult : Type}
    (igrmInit : RawRequest → Except AnalyzeResult P0)
    (analyzeInit : P0 → InitResult APhase1)
    (fromPhase1 : APhase1 → List FlowResult → APhase2O)
    (analyzeFlows : APhase2O → APhase2I)
    (fromPhase2 : APhase2I → List LimitResult → APhase3)
    (analyzeFinish : APhase3 → AnalyzeResult)
    (raw : RawRequest) : AnalyzeResult :=
  match igrmInit raw with
  | .error res => res
  | .ok p0 =>
    match analyzeInit p0 with
    | .Res r => r
    | .Phase1 p1 => analyzeFinish (fromPhase2 (analyzeFlows (fromPhase1 p1 [])) [])

/-- Embeds `inspect_request` from `curiefense-lua/src/lib.rs`: parse the meta
(the only error source), then run the one-shot analysis. -/
def inspect_request
    {P0 APhase1 APhase2O APhase2I APhase3 FlowResult LimitResult : Type}
    (igrmInit : RawRequest → Except AnalyzeResult P0)
    (analyzeInit : P0 → InitResult APhase1)
    (fromPhase1 : APhase1 → List FlowResult → APhase2O)
    (analyzeFlows : APhase2O → APhase2I)
    (fromPhase2 : APhase2I → List LimitResult → APhase3)
    (analyzeFinish : APhase3 → AnalyzeResult)
    (meta headers : StrMap) (mbody : Option (List Nat)) (ip : String) :
    Except String InspectionResult :=
  let logs := logsDefault
  let logs := logsDebug logs "Inspection init"
  match requestMetaFromMap meta with
  | .error e => .error e
  | .ok rmeta =>
    let raw : RawRequest := ⟨ip, rmeta, headers, mbody⟩
    .ok (InspectionResult.from_analyze logs
      (inspect_generic_request_map igrmInit analyzeInit fromPhase1 analyzeFlows
        fromPhase2 analyzeFinish raw))

/-- Embeds `lua_inspect_init`: package the staged init outcome for the
embedder. -/
def lua_inspect_init {P0 APhase1 : Type} (checkVisitorId : String → Bool)
    (igrmInit : RawRequest → Except AnalyzeResult P0)
    (analyzeInit : P0 → InitResult APhase1)
    (loglevel : LogLevel) (meta headers : StrMap)
    (mbody : Option (List Nat)) (ip : String) : LInitResult APhase1 :=
  match inspect_init checkVisitorId igrmInit analyzeInit loglevel meta headers mbody ip with
  | .ok (.Res r, logs) => .P0Result (InspectionResult.from_analyze logs r)
  | .ok (.Phase1 p1, logs) => .P1 logs p1
  | .error s => .P0Error s

/-- Embeds `lua_inspect_flows`: pass finished results and errors through; run
the flow analysis on a phase-1 state. -/
def lua_inspect_flows {APhase1 APhase2O APhase2I FlowResult : Type}
    (fromPhase1 : APhase1 → List FlowResult → APhase2O)
    (analyzeFlows : APhase2O → APhase2I)
    (pr1 : LInitResult APhase1) (flow_results : List FlowResult) :
    LInitResult APhase2I :=
  match pr1 with
  | .P0Result r => .P0Result r
  | .P0Error e => .P0Error e
  | .P1 logs p1 => .P1 logs (analyzeFlows (fromPhase1 p1 flow_results))

/-- Embeds `lua_inspect_process`: a finished or failed first argument is an
error; a phase state runs the limit conversion and the finish step. -/
def lua_inspect_process {APhase2I APhase3 LimitResult : Type}
    (fromPhase2 : APhase2I → List LimitResult → APhase3)
    (analyzeFinish : APhase3 → AnalyzeResult)
    (pred : LInitResult APhase2I) (limit_results : List LimitResult) :
    Except String InspectionResult :=
  match pred with
  | .P0Result _ =>
    .error "The first parameter is an inspection result, and should not have been used here!"
  | .P0Error rr => .error ("The first parameter is an error: " ++ rr)
  | .P1 logs p2 =>
    .ok (InspectionResult.from_analyze logs (analyzeFinish (fromPhase2 p2 limit_results)))

/-- Embeds `Result::is_ok`: whether a fallible computation succeeded. -/
def exceptIsOk : Except ε α → Bool
  | .ok _ => true
  | .error _ => false

/-- Bind on a successful `Except` computation. -/
theorem except_bind_ok (a : α) (f : α → Except ε β) :
    (Except.ok a >>= f) = f a :=
  rfl

/-- Bind on a failed `Except` computation propagates the error. -/
theorem except_bind_error (e : ε) (f : α → Except ε β) :
    ((Except.error e : Except ε α) >>= f) = Except.error e :=
  rfl

/-- Helper: `monitor_fixup` does not change the kept decision's action type (it
only rewrites headers), hence not its priority. -/
theorem monitor_fixup_priority (kept thrown : Decision) :
    priorityOpt (monitor_fixup kept thrown).maction = priorityOpt kept.maction := by
  unfold monitor_fixup
  cases h : kept.maction with
  | none => rw [h]
  | some action =>
    by_cases hm : action.atype = ActionType.Monitor
    · cases hh : action.headers <;> simp [hm, hh, priorityOpt, h]
    · simp [hm, priorityOpt, h]

/-- Helper: `monitor_fixup` does not change the kept decision's reasons. -/
theorem monitor_fixup_reasons (kept thrown : Decision) :
    (monitor_fixup kept thrown).reasons = kept.reasons := by
  unfold monitor_fixup
  cases h : kept.maction with
  | none => simp
  | some action =>
    by_cases hm : action.atype = ActionType.Monitor
    · cases hh : action.headers <;> simp [hm, hh]
    · simp [hm]

/-- Helper: `merge_decisions` rewritten through `mergeKeepsFirst`: fix up the kept
decision's headers, then append the thrown decision's reasons. -/
theorem merge_decisions_eq (d1 d2 : Decision) :
    merge_decisions d1 d2 =
      (if mergeKeepsFirst d1 d2 then
        { monitor_fixup d1 d2 with reasons := d1.reasons ++ d2.reasons }
      else
        { monitor_fixup d2 d1 with reasons := d2.reasons ++ d1.reasons }) := by
  obtain ⟨ma1, r1⟩ := d1
  obtain ⟨ma2, r2⟩ := d2
  cases ma1 with
  | none =>
    cases ma2 with
    | none => simp [merge_decisions, mergeKeepsFirst, monitor_fixup_reasons]
    | some a2 => simp [merge_decisions, mergeKeepsFirst, monitor_fixup_reasons]
  | some a1 =>
    cases ma2 with
    | none => simp [merge_decisions, mergeKeepsFirst, monitor_fixup_reasons]
    | some a2 =>
      by_cases hle : a2.atype.priority ≤ a1.atype.priority <;>
        simp [merge_decisions, mergeKeepsFirst, hle, monitor_fixup_reasons]

/-- The decision kept by `merge_decisions` has the larger optional-action
priority (an absent action has priority 0, below every real action). -/
theorem mergeKeepsFirst_le (d1 d2 : Decision) :
    (mergeKeepsFirst d1 d2 = true →
      priorityOpt d2.maction ≤ priorityOpt d1.maction) ∧
    (mergeKeepsFirst d1 d2 = false →
      priorityOpt d1.maction ≤ priorityOpt d2.maction) := by
  have hpos : ∀ a : Action, 0 < a.atype.priority := by
    intro a
    cases a.atype <;> simp [ActionType.priority]
  obtain ⟨ma1, r1⟩ := d1
  obtain ⟨ma2, r2⟩ := d2
  cases ma1 with
  | none =>
    cases ma2 with
    | none => simp [mergeKeepsFirst, priorityOpt]
    | some a2 => simp [mergeKeepsFirst, priorityOpt]
  | some a1 =>
    cases ma2 with
    | none => simp [mergeKeepsFirst, priorityOpt]
    | some a2 =>
      by_cases hle : a2.atype.priority ≤ a1.atype.priority <;>
        simp [mergeKeepsFirst, priorityOpt, hle]
      exact Nat.le_of_lt (Nat.not_le.mp hle)

end Curiefense

namespace Curiefense

/-!  ## Theorems: decision algebra  -/

/-- The And arm of `check_rule`: matching iff every child matches, and
in that case the matched locations are the union of the children's. -/
theorem check_rule_and_spec (rinfo : RequestInfo) (tags : Tags)
    (es : List GlobalFilterRule) :
    ((check_rule rinfo tags (.Rel .And es)).matching = true ↔
      ∀ r ∈ es, (check_rule rinfo tags r).matching = true) ∧
    ((∀ r ∈ es, (check_rule rinfo tags r).matching = true) →
      (check_rule rinfo tags (.Rel .And es)).matched =
        es.foldr (fun r acc => (check_rule rinfo tags r).matched ∪ acc) ∅) := by
  induction es with
  | nil => simp [check_rule]
  | cons sub rest ih =>
    by_cases h1 : (check_rule rinfo tags sub).matching
    · by_cases h2 : (check_rule rinfo tags (.Rel .And rest)).matching
      · have hall : ∀ r ∈ sub :: rest, (check_rule rinfo tags r).matching = true := by
          intro r hr
          rcases List.mem_cons.mp hr with h | h
          · exact h ▸ h1
          · exact ih.1.mp h2 r h
        refine ⟨by simp [check_rule, h1, h2]; exact fun r hr => ih.1.mp h2 r hr, ?_⟩
        intro _
        have hrest := ih.2 (fun r hr => ih.1.mp h2 r hr)
        simp [check_rule, h1, h2, hrest]
      · have hnot : ¬ ∀ r ∈ sub :: rest, (check_rule rinfo tags r).matching = true := by
          intro hall
          exact h2 (ih.1.mpr (fun r hr => hall r (List.mem_cons_of_mem _ hr)))
        refine ⟨?_, fun hall => absurd hall hnot⟩
        constructor
        · intro hmatch
          exact absurd hmatch (by simp [check_rule, h1, h2])
        · intro hall
          exact absurd hall hnot
    · have hnot : ¬ ∀ r ∈ sub :: rest, (check_rule rinfo tags r).matching = true := by
        intro hall
        exact h1 (hall sub (List.mem_cons_self _ _))
      refine ⟨?_, fun hall => absurd hall hnot⟩
      constructor
      · intro hmatch
        exact absurd hmatch (by simp [check_rule, h1])
      · intro hall
        exact absurd hall hnot

/-- The Or arm of `check_rule`: the result of the first matching child,
a non-match if there is none. -/
theorem check_rule_or_spec (rinfo : RequestInfo) (tags : Tags)
    (es : List GlobalFilterRule) :
    check_rule rinfo tags (.Rel .Or es) =
      (match es.find? (fun r => (check_rule rinfo tags r).matching) with
        | some r => check_rule rinfo tags r
        | none => ⟨∅, false⟩) := by
  induction es with
  | nil => simp [check_rule]
  | cons sub rest ih =>
    by_cases h : (check_rule rinfo tags sub).matching
    · simp [check_rule, List.find?_cons, h]
    · simp [check_rule, List.find?_cons, h, ih]

/-- C5: an atomic entry whose test returns None while negated matches
with an empty location set; And matches iff all children match, with the
union of their locations; Or returns the first matching child's result
and fails when none matches. -/
theorem check_rule_semantics (rinfo : RequestInfo) (tags : Tags) :
    (∀ e : GlobalFilterEntry, e.negated = true →
      entry_sel rinfo tags e.entry = none →
      check_entry rinfo tags e = ⟨∅, true⟩) ∧
    (∀ es : List GlobalFilterRule,
      ((check_rule rinfo tags (.Rel .And es)).matching = true ↔
        ∀ r ∈ es, (check_rule rinfo tags r).matching = true) ∧
      ((∀ r ∈ es, (check_rule rinfo tags r).matching = true) →
        (check_rule rinfo tags (.Rel .And es)).matched =
          es.foldr (fun r acc => (check_rule rinfo tags r).matched ∪ acc) ∅)) ∧
    (∀ es : List GlobalFilterRule,
      check_rule rinfo tags (.Rel .Or es) =
        (match es.find? (fun r => (check_rule rinfo tags r).matching) with
          | some r => check_rule rinfo tags r
          | none => ⟨∅, false⟩)) := by
  refine ⟨?_, fun es => check_rule_and_spec rinfo tags es,
    fun es => check_rule_or_spec rinfo tags es⟩
  intro e hneg hnone
  simp [check_entry, hnone, hneg]

/-- Witness for C5 at a concrete input: a negated always-false entry
(whose test returns None) matches with an empty location set, and an Or
over it returns that same result. -/
theorem check_rule_semantics_witness :
    check_entry rinfo0 tags0 ⟨true, .Always false⟩ = ⟨∅, true⟩ ∧
    check_rule rinfo0 tags0 (.Rel .Or [.Entry ⟨true, .Always false⟩]) = ⟨∅, true⟩ := by
  constructor
  · exact (check_rule_semantics rinfo0 tags0).1 ⟨true, .Always false⟩ rfl rfl
  · rw [(check_rule_semantics rinfo0 tags0).2.2 [.Entry ⟨true, .Always false⟩]]
    simp [check_rule, check_entry, entry_sel, List.find?_cons]

/-- C6 counterexample: the claim says Skip, Identity and Fingerprint
report non-blocking, but `SimpleActionT::is_blocking` returns true for
all of them (it is false only for Monitor). -/
theorem simple_is_blocking_refutes_claim :
    SimpleActionT.is_blocking SimpleActionT.Skip = true ∧
    SimpleActionT.is_blocking SimpleActionT.Identity = true ∧
    SimpleActionT.is_blocking (SimpleActionT.Fingerprint "fp") = true := by
  decide

/-- C6 (amended): `SimpleActionT::is_blocking` holds exactly for kinds
other than Monitor; `ActionType::is_blocking` holds exactly for Block;
the claimed set Custom/Challenge/FingerprintBlock is exactly where
`to_bdecision` is Blocking. -/
theorem is_blocking_characterization :
    (∀ t : SimpleActionT, t.is_blocking = true ↔ t ≠ SimpleActionT.Monitor) ∧
    (∀ a : ActionType, a.is_blocking = true ↔ a = ActionType.Block) ∧
    (∀ t : SimpleActionT, t.to_bdecision = BDecision.Blocking ↔
      (t = SimpleActionT.Challenge ∨
        (∃ c, t = SimpleActionT.Custom c ∨ t = SimpleActionT.FingerprintBlock c))) := by
  refine ⟨?_, ?_, ?_⟩
  · intro t
    cases t <;> simp [SimpleActionT.is_blocking]
  · intro a
    cases a <;> simp [ActionType.is_blocking]
  · intro t
    cases t <;> simp [SimpleActionT.to_bdecision]

/-- C9: `stronger_decision` always returns one of its arguments
unchanged; when both are actions, a tie or a first-argument win keeps the
first argument (with its own reasons only), otherwise the second. -/
theorem stronger_decision_spec (d1 d2 : SimpleDecision) :
    (stronger_decision d1 d2 = d1 ∨ stronger_decision d1 d2 = d2) ∧
    (∀ s1 r1 s2 r2, d1 = SimpleDecision.Action s1 r1 →
      d2 = SimpleDecision.Action s2 r2 →
      ((s2.atype.priority ≤ s1.atype.priority → stronger_decision d1 d2 = d1) ∧
        (s1.atype.priority < s2.atype.priority → stronger_decision d1 d2 = d2))) := by
  constructor
  · cases d1 with
    | Pass => exact Or.inr (by cases d2 <;> rfl)
    | Action s1 r1 =>
      cases d2 with
      | Pass => exact Or.inl rfl
      | Action s2 r2 =>
        by_cases h : s2.atype.priority ≤ s1.atype.priority
        · exact Or.inl (by simp [stronger_decision, h])
        · exact Or.inr (by simp [stronger_decision, h])
  · intro s1 r1 s2 r2 h1 h2
    subst h1; subst h2
    constructor
    · intro hle
      simp [stronger_decision, hle]
    · intro hlt
      simp [stronger_decision, Nat.not_le.mpr hlt]

/-- Witness for C9 at concrete decisions: a Custom action (priority 8)
against a Monitor action (priority 1); the first argument is kept with
its own reasons. -/
theorem stronger_decision_spec_witness :
    stronger_decision
      (SimpleDecision.Action ⟨SimpleActionT.Custom "blocked", none, 503, none⟩
        [⟨"1", "one", BDecision.Blocking, ∅⟩])
      (SimpleDecision.Action ⟨SimpleActionT.Monitor, none, 200, none⟩
        [⟨"2", "two", BDecision.Monitor, ∅⟩]) =
      SimpleDecision.Action ⟨SimpleActionT.Custom "blocked", none, 503, none⟩
        [⟨"1", "one", BDecision.Blocking, ∅⟩] :=
  ((stronger_decision_spec _ _).2 _ _ _ _ rfl rfl).1 (by decide)

/-- C1 counterexample: merging a pass-with-reason into a monitor decision
keeps the monitor decision, so the merged reasons are
`reasons(d2) ++ reasons(d1)`, not `reasons(d1) ++ reasons(d2)` as the
claim states. -/
theorem merge_decisions_reasons_refute_claim :
    (merge_decisions
        ⟨none, [⟨"1", "one", BDecision.Monitor, ∅⟩]⟩
        ⟨some ⟨ActionType.Monitor, false, 200, none, "", none⟩,
          [⟨"2", "two", BDecision.Blocking, ∅⟩]⟩).reasons ≠
      [⟨"1", "one", BDecision.Monitor, ∅⟩] ++
        [(⟨"2", "two", BDecision.Blocking, ∅⟩ : BlockReason)] := by
  intro h
  have h2 := congrArg (fun l => l.map (fun r => r.id)) h
  simp [merge_decisions, monitor_fixup] at h2

/-- C1 (amended): the merged action priority is the maximum of the two
argument priorities (an absent action having priority 0), and the merged
reasons are those of the kept decision followed by those of the thrown
one — which is `d1 ++ d2` exactly when `d1` is kept. -/
theorem merge_decisions_spec (d1 d2 : Decision) :
    priorityOpt (merge_decisions d1 d2).maction =
      max (priorityOpt d1.maction) (priorityOpt d2.maction) ∧
    (merge_decisions d1 d2).reasons =
      (if mergeKeepsFirst d1 d2 then d1.reasons ++ d2.reasons
        else d2.reasons ++ d1.reasons) := by
  cases hb : mergeKeepsFirst d1 d2 with
  | false =>
    have hle := (mergeKeepsFirst_le d1 d2).2 hb
    rw [merge_decisions_eq d1 d2, hb]
    refine ⟨?_, by simp⟩
    have : priorityOpt (monitor_fixup d2 d1).maction = priorityOpt d2.maction :=
      monitor_fixup_priority d2 d1
    simpa [this] using (Nat.max_eq_right hle).symm
  | true =>
    have hle := (mergeKeepsFirst_le d1 d2).1 hb
    rw [merge_decisions_eq d1 d2, hb]
    refine ⟨?_, by simp⟩
    have : priorityOpt (monitor_fixup d1 d2).maction = priorityOpt d1.maction :=
      monitor_fixup_priority d1 d2
    simpa [this] using (Nat.max_eq_left hle).symm

/-!  ## Theorems: the staged inspection pipeline  -/

/-- C2 counterexample: a request without a `browserfingerid` header is
accepted by the one-shot `inspect_request`, but `inspect_init` rejects
it with an error before any analysis, so the staged chain cannot
reproduce the one-shot result (here with trivial phase states and an
analysis that always passes). -/
theorem staged_pipeline_refutes_claim :
    @inspect_request Unit Unit Unit Unit Unit Unit Unit
        (fun _ => .ok ()) (fun _ => .Phase1 ()) (fun _ _ => ()) (fun _ => ())
        (fun _ _ => ()) (fun _ => ⟨⟨none, []⟩⟩)
        [("method", "GET"), ("path", "/")] [] none "1.2.3.4" =
      .ok ⟨⟨none, []⟩, ["Inspection init"]⟩ ∧
    @lua_inspect_init Unit Unit (fun _ => false)
        (fun _ => .ok ()) (fun _ => .Phase1 ())
        LogLevel.Debug [("method", "GET"), ("path", "/")] [] none "1.2.3.4" =
      .P0Error "visitorID does not exist" :=
  ⟨rfl, rfl⟩

/-- C2 (amended): for a request whose meta parses and that carries a
`browserfingerid` header, `inspect_init` never errors — it returns a
finished result or a phase-1 state — and when the analysis reaches
phase 1 the staged chain `process(flows(init(args), []), [])` produces
the same decision as the one-shot `inspect_request` (their log buffers
differ); a request lacking the header is rejected by `inspect_init`
alone while `inspect_request` accepts it. -/
theorem staged_pipeline_equivalence
    {P0 APhase1 APhase2O APhase2I APhase3 FlowResult LimitResult : Type}
    (checkVisitorId : String → Bool)
    (igrmInit : RawRequest → Except AnalyzeResult P0)
    (analyzeInit : P0 → InitResult APhase1)
    (fromPhase1 : APhase1 → List FlowResult → APhase2O)
    (analyzeFlows : APhase2O → APhase2I)
    (fromPhase2 : APhase2I → List LimitResult → APhase3)
    (analyzeFinish : APhase3 → AnalyzeResult)
    (loglevel : LogLevel) (meta headers : StrMap) (mbody : Option (List Nat))
    (ip : String) (rmeta : RequestMeta) (v : String) (p0 : P0)
    (hmeta : requestMetaFromMap meta = .ok rmeta)
    (hfp : rfGet headers "browserfingerid" = some v) :
    exceptIsOk
      (inspect_init checkVisitorId igrmInit analyzeInit loglevel meta headers mbody ip) =
      true ∧
    (igrmInit ⟨ip, rmeta, headers, mbody⟩ = .ok p0 →
      ∀ p1, analyzeInit p0 = .Phase1 p1 →
      (lua_inspect_process fromPhase2 analyzeFinish
          (lua_inspect_flows fromPhase1 analyzeFlows
            (lua_inspect_init checkVisitorId igrmInit analyzeInit loglevel meta headers
              mbody ip) [])
          []).map (fun r => r.decision) =
        (inspect_request igrmInit analyzeInit fromPhase1 analyzeFlows fromPhase2
            analyzeFinish meta headers mbody ip).map (fun r => r.decision)) := by
  constructor
  · simp only [inspect_init, hmeta, hfp]
    cases h : igrmInit ⟨ip, rmeta, headers, mbody⟩ with
    | error res => rfl
    | ok p0' => rfl
  · intro hinit p1 hphase
    simp [lua_inspect_init, inspect_init, lua_inspect_flows, lua_inspect_process,
      inspect_request, inspect_generic_request_map, InspectionResult.from_analyze,
      Except.map, hmeta, hfp, hinit, hphase]

/-- Witness for C2 at concrete components: trivial phase states, an
analysis reaching phase 1, and a request carrying a browserfingerid
header; the staged chain and the one-shot agree on the decision. -/
theorem staged_pipeline_equivalence_witness :
    exceptIsOk
      (@inspect_init Unit Unit (fun _ => false)
        (fun _ => .ok ()) (fun _ => .Phase1 ()) LogLevel.Debug
        [("method", "GET"), ("path", "/")] [("browserfingerid", "x")] none "1.2.3.4") =
      true ∧
    (@lua_inspect_process Unit Unit Unit
        (fun _ _ => ()) (fun _ => ⟨⟨none, []⟩⟩)
        (@lua_inspect_flows Unit Unit Unit Unit
          (fun _ _ => ()) (fun _ => ())
          (@lua_inspect_init Unit Unit (fun _ => false) (fun _ => .ok ()) (fun _ => .Phase1 ())
            LogLevel.Debug [("method", "GET"), ("path", "/")]
            [("browserfingerid", "x")] none "1.2.3.4") [])
        []).map (fun r => r.decision) =
      (@inspect_request Unit Unit Unit Unit Unit Unit Unit
          (fun _ => .ok ()) (fun _ => .Phase1 ()) (fun _ _ => ())
          (fun _ => ()) (fun _ _ => ()) (fun _ => ⟨⟨none, []⟩⟩)
          [("method", "GET"), ("path", "/")] [("browserfingerid", "x")] none
          "1.2.3.4").map (fun r => r.decision) := by
  have h := @staged_pipeline_equivalence Unit Unit Unit Unit Unit Unit Unit
    (fun _ => false) (fun _ => Except.ok ())
    (fun _ => InitResult.Phase1 ()) (fun _ _ => ()) (fun _ => ()) (fun _ _ => ())
    (fun _ => ⟨⟨none, []⟩⟩) LogLevel.Debug [("method", "GET"), ("path", "/")]
    [("browserfingerid", "x")] none "1.2.3.4" ⟨"GET", "/", none, none⟩ "x" ()
    rfl rfl
  exact ⟨h.1, h.2 rfl () rfl⟩

/-!  ## Theorems: identity fingerprint hashing  -/

/-- C7 counterexample: for a template with zero parts the final flush
still pushes the separator, so the string fed to SHA-256 is "." and not
the empty string; the stored hash is therefore the digest of "." rather
than of "". -/
theorem identity_empty_template_refutes_claim :
    identity_hash_input (fun _ => none) (fun _ => none) (fun _ => false) [] = .ok "." ∧
    ("." : String) ≠ "" := by
  constructor
  · rfl
  · decide

/-- C7 (amended): for an Identity template with zero parts the string
fed to SHA-256 is ".", for every regex compiler, selector resolver and
tag set: the loop never runs and the trailing flush emits the separator
followed by the empty current value. -/
theorem identity_empty_template_input (rc : RegexCompiler)
    (selF : RequestSelector → Option Selected) (tagsContains : String → Bool) :
    identity_hash_input rc selF tagsContains [] = .ok "." := by
  simp [identity_hash_input, ident_flush, idInit]

/-- C10: the separator is emitted only on a previous/current transition
(an equal pair emits nothing and a differing pair with no pending regex
emits "." and the previous value); a selector part resolving to the
current value emits nothing; the trailing flush always appends "." and
the final value; two consecutive unresolvable selectors contribute one
emission between them, giving "..None". -/
theorem identity_transition_emission :
    (∀ (rc : RegexCompiler) (st : IdState), st.pre_rule = st.cur_rule →
      ident_guard rc st = .ok st) ∧
    (∀ (rc : RegexCompiler) (st : IdState), st.pre_rule ≠ st.cur_rule →
      st.regex_rule = "" →
      ident_guard rc st = .ok { st with hash_item := st.hash_item ++ "." ++ st.pre_rule }) ∧
    (∀ (rc : RegexCompiler) (selF : RequestSelector → Option Selected)
      (tc : String → Bool) (st : IdState) (sq : RequestSelector),
      sel_value selF sq = st.cur_rule →
      identity_step rc selF tc st (.Var (.Selector sq)) =
        .ok { st with pre_rule := st.cur_rule }) ∧
    (∀ (rc : RegexCompiler) (st : IdState), st.regex_rule = "" →
      ident_flush rc st = .ok (st.hash_item ++ "." ++ st.cur_rule)) ∧
    (∀ rc : RegexCompiler,
      identity_hash_input rc (fun _ => none) (fun _ => false)
        [.Var (.Selector "a"), .Var (.Selector "b")] = .ok "..None") := by
  refine ⟨?_, ?_, ?_, ?_, ?_⟩
  · intro rc st h
    simp [ident_guard, h]
  · intro rc st h hre
    simp [ident_guard, h, hre]
  · intro rc selF tc st sq h
    simp [identity_step, h, ident_guard]
  · intro rc st h
    simp [ident_flush, h]
  · intro rc
    rfl

/-!  ## Theorems: the tagger  -/

/-- C3: `tag_request` on a matching Identity section whose action has no
header map evaluates `a.headers.clone().unwrap()` on `None` and panics
(modelled as an error), contradicting the no-panic propagation policy. -/
theorem tag_request_identity_none_panics :
    tag_request (fun _ => "") (fun _ => false) (fun _ => none) (fun _ _ => none)
      false [identity_none_section] rinfo0 [] =
      .error "called Option::unwrap() on a None value" := by
  simp [tag_request, process_section, identity_none_section, check_rule, check_entry,
    entry_sel, except_bind_error]

/-- C4: on a matching Fingerprint section, the decision escalates to
FingerprintBlock exactly when the browserfingerid header is absent or
both the key-value store and the HTTPS provider fail to confirm the
visitor id; with the header absent, the resulting action is
FingerprintBlock with the section's status and content. -/
theorem tag_request_fingerprint_escalation
    (sha256hex : String → String) (checkVisitorId : String → Bool)
    (rc : RegexCompiler) (selF : RequestSelector → Tags → Option Selected)
    (is_human : Bool) (rinfo : RequestInfo) (vtags : VirtualTags)
    (id name : String) (stags : List String) (a : SimpleAction) (content : String)
    (ha : a.atype = SimpleActionT.Fingerprint content) :
    (rfGet rinfo.headers "browserfingerid" = none →
      tag_request sha256hex checkVisitorId rc selF is_human
          [⟨id, name, stags, .Entry ⟨false, .Always true⟩, some a⟩] rinfo vtags =
        .ok { tags := (seed_tags is_human rinfo vtags).add_raw_tags_locs stags
                {Location.Request},
              decision := SimpleDecision.Action
                { a with atype := SimpleActionT.FingerprintBlock content }
                [BlockReason.global_filter id name BDecision.Blocking {Location.Request}],
              gf_total := 1, gf_matched := 1, identity := rinfo.identity }) ∧
    (∀ v, rfGet rinfo.headers "browserfingerid" = some v →
      ∃ res, tag_request sha256hex checkVisitorId rc selF is_human
          [⟨id, name, stags, .Entry ⟨false, .Always true⟩, some a⟩] rinfo vtags =
          .ok res ∧
        ((res.decision = SimpleDecision.Action
            { a with atype := SimpleActionT.FingerprintBlock content }
            [BlockReason.global_filter id name BDecision.Blocking {Location.Request}]) ↔
          (checkVisitorId v = false ∧ fingerprint_check_visitors v = false))) := by
  have hmon : a.atype ≠ SimpleActionT.Monitor := by
    rw [ha]
    exact fun h => SimpleActionT.noConfusion h
  have hident : a.atype ≠ SimpleActionT.Identity := by
    rw [ha]
    exact fun h => SimpleActionT.noConfusion h
  constructor
  · intro habsent
    simp [tag_request, process_section, check_rule, check_entry, entry_sel, habsent,
      hmon, hident, ha, BlockReason.global_filter, SimpleActionT.to_bdecision,
      stronger_decision, except_bind_ok]
  · intro v hpresent
    have hnoblk :
        tag_request sha256hex checkVisitorId rc selF is_human
            [⟨id, name, stags, .Entry ⟨false, .Always true⟩, some a⟩] rinfo vtags =
          .ok { tags := (seed_tags is_human rinfo vtags).add_raw_tags_locs stags
                  {Location.Request},
                decision := SimpleDecision.Action a
                  [BlockReason.global_filter id name BDecision.Monitor {Location.Request}],
                gf_total := 1, gf_matched := 1, identity := rinfo.identity } := by
      cases hcv : checkVisitorId v <;>
        simp [tag_request, process_section, check_rule, check_entry, entry_sel, hpresent,
          hmon, hident, ha, hcv, fingerprint_check_visitors, BlockReason.global_filter,
          SimpleActionT.to_bdecision, stronger_decision, except_bind_ok]
    refine ⟨_, hnoblk, ?_⟩
    constructor
    · intro heq
      have hdec : SimpleDecision.Action a
          [BlockReason.global_filter id name BDecision.Monitor {Location.Request}] =
          SimpleDecision.Action { a with atype := SimpleActionT.FingerprintBlock content }
            [BlockReason.global_filter id name BDecision.Blocking {Location.Request}] := heq
      simp [BlockReason.global_filter] at hdec
    · intro hrhs
      have h2 := hrhs.2
      simp [fingerprint_check_visitors] at h2

/-- Witness for C4: a section carrying Fingerprint with content "fp"
and status 503, on a request without the browserfingerid header: the
decision's action is FingerprintBlock, status 503, body "fp". -/
theorem tag_request_fingerprint_escalation_witness :
    tag_request (fun _ => "") (fun _ => false) (fun _ => none) (fun _ _ => none)
      false [⟨"gf2", "fp section", [], .Entry ⟨false, .Always true⟩,
        some ⟨SimpleActionT.Fingerprint "fp", none, 503, none⟩⟩] rinfo0 [] =
      .ok { tags := (seed_tags false rinfo0 []).add_raw_tags_locs [] {Location.Request},
            decision := SimpleDecision.Action
              ⟨SimpleActionT.FingerprintBlock "fp", none, 503, none⟩
              [BlockReason.global_filter "gf2" "fp section" BDecision.Blocking
                {Location.Request}],
            gf_total := 1, gf_matched := 1, identity := rinfo0.identity } :=
  (tag_request_fingerprint_escalation (fun _ => "") (fun _ => false) (fun _ => none)
    (fun _ _ => none) false rinfo0 [] "gf2" "fp section" []
    ⟨SimpleActionT.Fingerprint "fp", none, 503, none⟩ "fp" rfl).1 rfl

/-!  ## Theorems: log serializer tag synthesis  -/

/-- C8: the log record synthesizes `status=N` and `status-class=Nxx`
tags from the response code, except when the final action is of Monitor
type, in which case neither appears even though a code is present; a
Block decision with code 403 yields `status=403` and `status-class=4xx`. -/
theorem log_tags_synthesis (tags extra : List String) (a : Action)
    (reasons : List BlockReason) (rcode : Option Nat) :
    (a.atype = ActionType.Monitor →
      log_tags_field tags extra ⟨some a, reasons⟩ rcode = tags ++ extra) ∧
    (a.atype = ActionType.Block →
      log_tags_field tags extra ⟨some a, reasons⟩ (some 403) =
        tags ++ extra ++ ["status=403", "status-class=4xx"]) ∧
    (∀ code, a.atype ≠ ActionType.Monitor →
      log_tags_field tags extra ⟨some a, reasons⟩ (some code) =
        tags ++ extra ++ ["status=" ++ toString code,
          "status-class=" ++ (toString (code / 100) ++ "xx")]) := by
  refine ⟨?_, ?_, ?_⟩
  · intro h
    simp [log_tags_field, jsonlog_rcode, code_vec, h]
  · intro h
    have hne : a.atype ≠ ActionType.Monitor := by
      rw [h]
      exact fun hc => ActionType.noConfusion hc
    simp [log_tags_field, jsonlog_rcode, code_vec, hne]
    exact ⟨rfl, rfl⟩
  · intro code hne
    simp [log_tags_field, jsonlog_rcode, code_vec, hne]

/-- Witness for C8 at concrete decisions: a Monitor action with response
code 200 synthesizes nothing; a Block action with code 403 synthesizes
`status=403` and `status-class=4xx`. -/
theorem log_tags_synthesis_witness :
    log_tags_field ["t"] []
        ⟨some ⟨ActionType.Monitor, false, 200, none, "", none⟩, []⟩ (some 200) = ["t"] ∧
    log_tags_field ["t"] []
        ⟨some ⟨ActionType.Block, true, 403, none, "denied", none⟩, []⟩ (some 403) =
      ["t"] ++ [] ++ ["status=403", "status-class=4xx"] :=
  ⟨(log_tags_synthesis ["t"] [] ⟨ActionType.Monitor, false, 200, none, "", none⟩
      [] (some 200)).1 rfl,
    (log_tags_synthesis ["t"] [] ⟨ActionType.Block, true, 403, none, "denied", none⟩
      [] none).2.1 rfl⟩

/-- Witness for C10: the guard at a state with equal previous and
current values leaves the state unchanged, and the two-unresolvable-
selector template hashes "..None". -/
theorem identity_transition_emission_witness :
    ident_guard (fun _ => none) ⟨"h", "", "x", "x"⟩ = .ok ⟨"h", "", "x", "x"⟩ ∧
    identity_hash_input (fun _ => none) (fun _ => none) (fun _ => false)
      [.Var (.Selector "a"), .Var (.Selector "b")] = .ok "..None" :=
  ⟨identity_transition_emission.1 (fun _ => none) ⟨"h", "", "x", "x"⟩ rfl,
    identity_transition_emission.2.2.2.2 (fun _ => none)⟩

end Curiefense
